import Mathlib

/-!
Verification of the BERT pretraining dataset pipeline in `Week2/BERT/dataset.py`
(class `IMDBBertDataset`).

The Python source is shallowly embedded below.  Python exceptions are modelled
by the `Except PyError` monad; the ambient `random` module is modelled by an
explicit stream of draws (`List Nat`); pandas / numpy floating point values are
modelled by exact rationals (every quantity involved is derived from natural
number word counts, so no rounding behaviour is lost for the properties stated
here).  Each definition carries a comment pointing at the line(s) of
`dataset.py` it embeds.
-/

/-- Kinds of Python exception that the embedded code can raise, together with
the two error classes (`ConfigurationError`, `DataError`) that the design
documentation names but the source never defines or raises.  `indexError` is
the `IndexError` numpy raises for a percentile of an empty array;
`attributeError` is raised by the call to the undefined `random.randin`
(line 133); `typeError` is raised when `_create_item` (defined with no
parameters, line 139) is called with three arguments (lines 97 and 102);
`valueError` is raised by `random.randint(0, -1)` on an empty range;
`runtimeError` is raised by torchtext `Vocab.insert_token` on a duplicate
token. -/
inductive PyError where
  | indexError
  | attributeError
  | typeError
  | valueError
  | runtimeError
  | configurationError
  | dataError
deriving DecidableEq, Repr

/-- Auxiliary for `pySplit`: Python `str.split(sep)` over character lists.
`fuel` only drives the structural recursion; it is always called with more
fuel than there are characters, and every step strictly consumes input
(the separator is a fixed non-empty string), so the `fuel = 0` clause is
never reached in any use below. -/
def pySplitAux (sep : List Char) : Nat → List Char → List Char → List (List Char)
  | 0, cur, _ => [cur.reverse]
  | _ + 1, cur, [] => [cur.reverse]
  | fuel + 1, cur, c :: cs =>
      if sep.isPrefixOf (c :: cs) then
        cur.reverse :: pySplitAux sep fuel [] ((c :: cs).drop sep.length)
      else
        pySplitAux sep fuel (c :: cur) cs

/-- Python `s.split(sep)` for a non-empty separator `sep`: split on every
non-overlapping occurrence of `sep`, left to right, keeping empty fragments.
Used to embed `review.split('. ')` (lines 78 and 92). -/
def pySplit (s sep : String) : List String :=
  (pySplitAux sep.data (s.data.length + 1) [] s.data).map (fun cs => String.mk cs)

/-- Auxiliary for `pyWords`: split a character list on runs of whitespace,
discarding empty fragments, accumulating the current word reversed. -/
def pyWordsAux : List Char → List Char → List (List Char)
  | acc, [] => if acc = [] then [] else [acc.reverse]
  | acc, c :: cs =>
      if c.isWhitespace then
        if acc = [] then pyWordsAux [] cs else acc.reverse :: pyWordsAux [] cs
      else
        pyWordsAux (c :: acc) cs

/-- Python `s.split()` with no argument: whitespace-delimited words, runs of
whitespace collapsed, no empty words.  Used to embed `sentence.split()`
(line 109). -/
def pyWords (s : String) : List String :=
  (pyWordsAux [] s.data).map (fun cs => String.mk cs)

/-- Embeds `_update_length` (lines 108-110): builds and RETURNS
`lengths + sentences_lengths`; it does not mutate its `lengths` argument. -/
def update_length (sentences : List String) (lengths : List Nat) : List Nat :=
  lengths ++ sentences.map (fun s => (pyWords s).length)

/-- One iteration of the sentence-splitting loop of `prepare_dataset`
(lines 77-80).  The statement `self._update_length(review_sentences,
sentence_lens)` (line 80) calls `_update_length` but does not assign its
return value, and `_update_length` does not mutate `sentence_lens`, so the
accumulated list of lengths is returned unchanged. -/
def sentence_loop_step (sentence_lens : List Nat) (review : String) : List Nat :=
  let _discarded := update_length (pySplit review ". ") sentence_lens
  sentence_lens

/-- Insertion step for an insertion sort on naturals (ascending). -/
def insertSorted (x : Nat) : List Nat → List Nat
  | [] => [x]
  | y :: ys => if x ≤ y then x :: y :: ys else y :: insertSorted x ys

/-- Ascending sort, as performed internally by `np.percentile`. -/
def sortNat (xs : List Nat) : List Nat := xs.foldr insertSorted []

/-- The value of `np.percentile(arr, p)` with the default linear
interpolation, over exact rationals: with the data sorted ascending and
`pos = p/100 * (n-1)`, interpolate linearly between the elements at
`floor pos` and the next index. -/
def percentileLinear (xs : List Nat) (p : ℚ) : ℚ :=
  let s := sortNat xs
  let n := s.length
  let pos : ℚ := p / 100 * ((n : ℚ) - 1)
  let i : Nat := (Int.floor pos).toNat
  let lo : ℚ := (s.getD i 0 : Nat)
  let hi : ℚ := (s.getD (min (i + 1) (n - 1)) 0 : Nat)
  lo + (pos - Int.floor pos) * (hi - lo)

/-- Python `int(...)`: truncation toward zero. -/
def pyInt (q : ℚ) : Int := if 0 ≤ q then Int.floor q else Int.ceil q

/-- Embeds `_find_optimal_sentence_length` (lines 112-114):
`int(np.percentile(np.array(lengths), 70))`.  On an empty `lengths`,
`np.percentile` raises `IndexError` ("cannot do a non-empty take from an
empty axes"). -/
def find_optimal_sentence_length (lengths : List Nat) : Except PyError Int :=
  if lengths = [] then Except.error PyError.indexError
  else Except.ok (pyInt (percentileLinear lengths 70))

/-- Auxiliary for `counterKeys`: keys in order of first occurrence, given the
set of keys already seen. -/
def counterKeysAux (seen : List String) : List String → List String
  | [] => []
  | t :: ts => if t ∈ seen then counterKeysAux seen ts else t :: counterKeysAux (t :: seen) ts

/-- The keys of a `collections.Counter` fed the given token stream, in Counter
iteration order (first-occurrence order, as for any Python dict). -/
def counterKeys (toks : List String) : List String := counterKeysAux [] toks

/-- The `collections.Counter` of lines 41 and 84-86 after all
`counter.update(sen_tokens)` calls: each distinct token, in first-occurrence
order, with its total count. -/
def buildCounter (toks : List String) : List (String × Nat) :=
  (counterKeys toks).map (fun t => (t, toks.count t))

/-- A frozen torchtext vocabulary: the index-to-token list plus the default
index returned for lookups of absent tokens (`set_default_index`, line 126). -/
structure Vocab where
  itos : List String
  default_index : Nat
deriving DecidableEq, Repr

/-- First index at or after `start` holding `tok` (torchtext string-to-index
lookup over the `itos` list). -/
def idxOfFrom (tok : String) : List String → Nat → Option Nat
  | [], _ => none
  | t :: ts, start => if t = tok then some start else idxOfFrom tok ts (start + 1)

/-- torchtext `vocab[token]`: the token's index, or the default index (UNK)
when the token is absent. -/
def Vocab.stoi (v : Vocab) (tok : String) : Nat :=
  (idxOfFrom tok v.itos 0).getD v.default_index

/-- torchtext `vocab.lookup_token(index)`: the token at an index. -/
def Vocab.lookup_token (v : Vocab) (i : Nat) : Option String :=
  v.itos.get? i

/-- Python `list.insert(idx, tok)` on the itos list: insert before position
`idx`, clamping past-the-end indices to an append. -/
def insertAt : List String → Nat → String → List String
  | l, 0, t => t :: l
  | [], _ + 1, t => [t]
  | x :: l, n + 1, t => x :: insertAt l n t

/-- torchtext `Vocab.insert_token(tok, idx)`: raises RuntimeError when the
token is already present, otherwise inserts it at the index. -/
def insert_token (itos : List String) (tok : String) (idx : Nat) :
    Except PyError (List String) :=
  if tok ∈ itos then Except.error PyError.runtimeError
  else Except.ok (insertAt itos idx tok)

/-- The five special token strings, in the insertion order of lines 121-125. -/
def specials : List String := ["[CLS]", "[PAD]", "[MASK]", "[SEP]", "[UNK]"]

/-- The non-special tokens retained by torchtext `vocab(counter, min_freq=2)`
(line 118): the counter's keys with count at least 2, in the counter's own
(first-occurrence) iteration order — torchtext preserves the order of the
ordered dict it is given and this code passes the `Counter` unsorted. -/
def keptTokens (counter : List (String × Nat)) : List String :=
  (counter.filter (fun p => 2 ≤ p.2)).map Prod.fst

/-- Embeds `_fill_vocab` (lines 116-126): build the min-freq-2 vocabulary from
the counter, then insert `[CLS]`, `[PAD]`, `[MASK]`, `[SEP]`, `[UNK]` at
indices 0..4 and set the default (unknown-token) index to 4. -/
def fill_vocab (counter : List (String × Nat)) : Except PyError Vocab := do
  let itos0 := keptTokens counter
  let itos1 ← insert_token itos0 "[CLS]" 0
  let itos2 ← insert_token itos1 "[PAD]" 1
  let itos3 ← insert_token itos2 "[MASK]" 2
  let itos4 ← insert_token itos3 "[SEP]" 3
  let itos5 ← insert_token itos4 "[UNK]" 4
  pure { itos := itos5, default_index := 4 }

/-- Embeds `_select_false_nsp_sentences` (lines 128-137).  The random stream
models `random`'s global generator.  With no sentences, `random.randint(0,
-1)` raises ValueError; otherwise the first draw succeeds and the second
draw, written `random.randin(0, sentence_len-1)` (line 133), raises
AttributeError because the `random` module has no attribute `randin` — so the
rejection `while` loop of lines 135-136 is unreachable and the function never
returns a sentence pair. -/
def select_false_nsp_sentences (sentences : List String) (stream : List Nat) :
    Except PyError ((String × String) × List Nat) :=
  let sentence_len := sentences.length
  if sentence_len = 0 then Except.error PyError.valueError
  else
    let _sentence_idx := stream.headD 0 % sentence_len
    Except.error PyError.attributeError

/-- The body of `_create_item` as defined (lines 139-140): it takes no
parameters besides `self` and returns the constant list `[0, 0, 0]`. -/
def create_item_body : List Nat := [0, 0, 0]

/-- The call `self._create_item(first, second, label)` (lines 97 and 102):
since `_create_item` is defined with no parameters besides `self`, every
three-argument call raises TypeError, whatever the arguments are. -/
def create_item_call (_first _second : List String) (_is_next : Nat) :
    Except PyError (List Nat) :=
  Except.error PyError.typeError

/-- Embeds the per-review body of the preprocessing loop of `prepare_dataset`
(lines 91-103): split the review into sentences; for each adjacent pair,
append the true-NSP item (label 1) and then a false-NSP item (label 0) built
from a corpus-wide sampled pair. -/
def preprocess_review (tokenizer : String → List String) (sentences : List String)
    (acc : List (List Nat) × List Nat) (review : String) :
    Except PyError (List (List Nat) × List Nat) := do
  let review_sentences := pySplit review ". "
  if review_sentences.length > 1 then
    (List.range (review_sentences.length - 1)).foldlM
      (fun (st : List (List Nat) × List Nat) i => do
        let first := tokenizer (review_sentences.getD i "")
        let second := tokenizer (review_sentences.getD (i + 1) "")
        let item1 ← create_item_call first second 1
        let (pair, stream2) ← select_false_nsp_sentences sentences st.2
        let firstF := tokenizer pair.1
        let secondF := tokenizer pair.2
        let item2 ← create_item_call firstF secondF 0
        pure (st.1 ++ [item1, item2], stream2))
      acc
  else
    pure acc

/-- Embeds `prepare_dataset` (lines 71-105).  First pass: flatten every review
into sentences (line 77-79) while the `_update_length` results are discarded
(line 80), then compute the optimal sentence length from the (hence always
empty) lengths list (line 81); build the token counter (lines 84-86) and the
vocabulary (line 88).  Second pass: generate the NSP items (lines 91-103).
The tokenizer (`get_tokenizer('basic_english')`, line 40) is the pluggable
tokenization capability and is passed as a parameter. -/
def prepare_dataset (tokenizer : String → List String) (ds : List String)
    (stream : List Nat) : Except PyError (List (List Nat)) := do
  let sentences := ds.foldl (fun acc review => acc ++ pySplit review ". ") []
  let sentence_lens := ds.foldl sentence_loop_step []
  let _optimal_sentence_length ← find_optimal_sentence_length sentence_lens
  let counter := buildCounter (sentences.foldl (fun acc s => acc ++ tokenizer s) [])
  let _vocab ← fill_vocab counter
  let result ← ds.foldlM (preprocess_review tokenizer sentences) ([], stream)
  pure result.1

/-- The parameter names of `IMDBBertDataset.__init__` (line 34), in order. -/
def init_params : List String :=
  ["self", "path", "ds_from", "ds_to", "should_include_text"]

/-- Concrete counter used by the witnesses: two tokens at or above the
min-freq threshold 2, one below it. -/
def counter0 : List (String × Nat) := [("good", 3), ("movie", 2), ("rare", 1)]

/-- The vocabulary frozen from `counter0`. -/
def vocab0 : Vocab :=
  { itos := ["[CLS]", "[PAD]", "[MASK]", "[SEP]", "[UNK]", "good", "movie"],
    default_index := 4 }

theorem pySplit_example1 : pySplit "a b. c d" ". " = ["a b", "c d"] := rfl

theorem pySplit_example2 : pySplit "no delimiter" ". " = ["no delimiter"] := rfl

theorem fill_vocab_counter0 : fill_vocab counter0 = Except.ok vocab0 := rfl

theorem foldl_sentence_loop_step (ds : List String) (init : List Nat) :
    ds.foldl sentence_loop_step init = init := by
  induction ds generalizing init with
  | nil => rfl
  | cons r rs ih => simpa [sentence_loop_step] using ih init

/-- Helper: every build attempt fails.  Because line 80 discards the value
returned by `_update_length`, `sentence_lens` is still empty at line 81 for
every corpus, and `np.percentile` of an empty array raises IndexError, which
propagates out of `prepare_dataset`. -/
theorem prepare_dataset_fails (tokenizer : String → List String) (ds : List String)
    (stream : List Nat) :
    prepare_dataset tokenizer ds stream = Except.error PyError.indexError := by
  have h := foldl_sentence_loop_step ds []
  simp only [prepare_dataset, h]
  rfl

theorem idxOfFrom_ge (tok : String) :
    ∀ (l : List String) (i j : Nat), idxOfFrom tok l i = some j → i ≤ j := by
  intro l
  induction l with
  | nil => intro i j h; simp [idxOfFrom] at h
  | cons t ts ih =>
      intro i j h
      by_cases ht : t = tok
      · simp [idxOfFrom, ht] at h; omega
      · simp [idxOfFrom, ht] at h
        have := ih (i + 1) j h
        omega

theorem idxOfFrom_get (tok : String) :
    ∀ (l : List String) (i j : Nat), idxOfFrom tok l i = some j →
      l.get? (j - i) = some tok := by
  intro l
  induction l with
  | nil => intro i j h; simp [idxOfFrom] at h
  | cons t ts ih =>
      intro i j h
      by_cases ht : t = tok
      · simp [idxOfFrom, ht] at h
        simp [ht, h]
      · simp [idxOfFrom, ht] at h
        have hge := idxOfFrom_ge tok ts (i + 1) j h
        have hts := ih (i + 1) j h
        have hstep : j - i = (j - (i + 1)) + 1 := by omega
        rw [hstep]
        simpa using hts

theorem idxOfFrom_isSome_of_mem (tok : String) :
    ∀ (l : List String) (i : Nat), tok ∈ l → (idxOfFrom tok l i).isSome := by
  intro l
  induction l with
  | nil => intro i h; simp at h
  | cons t ts ih =>
      intro i h
      by_cases ht : t = tok
      · simp [idxOfFrom, ht]
      · have : tok ∈ ts := by
          rcases List.mem_cons.mp h with h1 | h1
          · exact absurd h1.symm ht
          · exact h1
        simpa [idxOfFrom, ht] using ih (i + 1) this

theorem idxOfFrom_eq_none_of_not_mem (tok : String) :
    ∀ (l : List String) (i : Nat), tok ∉ l → idxOfFrom tok l i = none := by
  intro l
  induction l with
  | nil => intro i _; rfl
  | cons t ts ih =>
      intro i h
      have ht : t ≠ tok := fun he => h (by simp [he])
      have hts : tok ∉ ts := fun hm => h (List.mem_cons_of_mem _ hm)
      simp [idxOfFrom, ht, ih (i + 1) hts]

theorem idxOfFrom_append_of_not_mem (tok : String) :
    ∀ (l1 l2 : List String) (i : Nat), tok ∉ l1 →
      idxOfFrom tok (l1 ++ l2) i = idxOfFrom tok l2 (i + l1.length) := by
  intro l1
  induction l1 with
  | nil => intro l2 i _; simp
  | cons t ts ih =>
      intro l2 i h
      have ht : t ≠ tok := fun he => h (by simp [he])
      have hts : tok ∉ ts := fun hm => h (List.mem_cons_of_mem _ hm)
      have harith : i + 1 + ts.length = i + (t :: ts).length := by
        simp; omega
      calc idxOfFrom tok ((t :: ts) ++ l2) i
          = idxOfFrom tok (ts ++ l2) (i + 1) := by simp [idxOfFrom, ht]
        _ = idxOfFrom tok l2 (i + 1 + ts.length) := ih l2 (i + 1) hts
        _ = idxOfFrom tok l2 (i + (t :: ts).length) := by rw [harith]

theorem except_bind_ok {α β : Type} {a : Except PyError α}
    {f : α → Except PyError β} {v : β} (h : (a >>= f) = Except.ok v) :
    ∃ x, a = Except.ok x ∧ f x = Except.ok v := by
  cases a with
  | error e => simp [Bind.bind, Except.bind] at h
  | ok x => exact ⟨x, rfl, by simpa [Bind.bind, Except.bind] using h⟩

theorem insert_token_ok {l l2 : List String} {t : String} {i : Nat}
    (h : insert_token l t i = Except.ok l2) : l2 = insertAt l i t := by
  unfold insert_token at h
  split_ifs at h with hm
  injection h with h2
  exact h2.symm

theorem insertAt_zero (l : List String) (t : String) : insertAt l 0 t = t :: l := by
  cases l <;> rfl

theorem insertAt_cons_succ (x : String) (l : List String) (n : Nat) (t : String) :
    insertAt (x :: l) (n + 1) t = x :: insertAt l n t := rfl

/-- Helper: a successful `_fill_vocab` freezes exactly the five special tokens
in front of the retained tokens, with default index 4. -/
theorem fill_vocab_ok (counter : List (String × Nat)) (v : Vocab)
    (hv : fill_vocab counter = Except.ok v) :
    v.itos = specials ++ keptTokens counter ∧ v.default_index = 4 := by
  simp only [fill_vocab] at hv
  obtain ⟨i1, h1, hv⟩ := except_bind_ok hv
  obtain ⟨i2, h2, hv⟩ := except_bind_ok hv
  obtain ⟨i3, h3, hv⟩ := except_bind_ok hv
  obtain ⟨i4, h4, hv⟩ := except_bind_ok hv
  obtain ⟨i5, h5, hv⟩ := except_bind_ok hv
  have e1 := insert_token_ok h1
  have e2 := insert_token_ok h2
  have e3 := insert_token_ok h3
  have e4 := insert_token_ok h4
  have e5 := insert_token_ok h5
  have hvv : v = { itos := i5, default_index := 4 } := by
    simpa [pure, Except.pure] using hv.symm
  subst hvv e1 e2 e3 e4 e5
  refine ⟨?_, rfl⟩
  simp [insertAt_zero, insertAt_cons_succ, specials]

theorem idxOfFrom_cons_self (tok : String) (ts : List String) (i : Nat) :
    idxOfFrom tok (tok :: ts) i = some i := by
  simp [idxOfFrom]

theorem idxOfFrom_cons_ne {hd tok : String} (h : hd ≠ tok) (ts : List String) (i : Nat) :
    idxOfFrom tok (hd :: ts) i = idxOfFrom tok ts (i + 1) := by
  simp [idxOfFrom, h]

theorem mem_keptTokens {counter : List (String × Nat)} {t : String} :
    t ∈ keptTokens counter ↔ ∃ c, (t, c) ∈ counter ∧ 2 ≤ c := by
  constructor
  · intro h
    simp only [keptTokens, List.mem_map, List.mem_filter] at h
    obtain ⟨⟨a, b⟩, ⟨hm, hb⟩, he⟩ := h
    subst he
    exact ⟨b, hm, by simpa using hb⟩
  · intro ⟨c, hm, hc⟩
    simp only [keptTokens, List.mem_map, List.mem_filter]
    exact ⟨⟨t, c⟩, ⟨hm, by simpa using hc⟩, rfl⟩

/-- C1: for any counter from which `_fill_vocab` successfully freezes a
vocabulary, the five special tokens occupy exactly indices CLS=0, PAD=1,
MASK=2, SEP=3, UNK=4 (in both directions of the mapping), every retained
non-special token is assigned an index at least 5, and looking up a token
absent from the vocabulary returns the UNK index 4. -/
theorem special_tokens_fixed_indices
    (counter : List (String × Nat)) (v : Vocab) (hv : fill_vocab counter = Except.ok v)
    (t : String) (ht : t ∈ v.itos) (hts : t ∉ specials)
    (u : String) (hu : u ∉ v.itos) :
    (v.stoi "[CLS]" = 0 ∧ v.stoi "[PAD]" = 1 ∧ v.stoi "[MASK]" = 2 ∧
      v.stoi "[SEP]" = 3 ∧ v.stoi "[UNK]" = 4) ∧
    (v.lookup_token 0 = some "[CLS]" ∧ v.lookup_token 1 = some "[PAD]" ∧
      v.lookup_token 2 = some "[MASK]" ∧ v.lookup_token 3 = some "[SEP]" ∧
      v.lookup_token 4 = some "[UNK]") ∧
    5 ≤ v.stoi t ∧ v.stoi u = 4 := by
  obtain ⟨hitos, hdef⟩ := fill_vocab_ok counter v hv
  refine ⟨?_, ?_, ?_, ?_⟩
  · simp [Vocab.stoi, hitos, specials, idxOfFrom]
  · simp [Vocab.lookup_token, hitos, specials]
  · have htk : t ∈ keptTokens counter := by
      rw [hitos] at ht
      rcases List.mem_append.mp ht with h1 | h1
      · exact absurd h1 hts
      · exact h1
    have happ : idxOfFrom t v.itos 0 = idxOfFrom t (keptTokens counter) 5 := by
      rw [hitos]
      simpa [specials] using
        idxOfFrom_append_of_not_mem t specials (keptTokens counter) 0 hts
    have hsome := idxOfFrom_isSome_of_mem t (keptTokens counter) 5 htk
    obtain ⟨j, hj⟩ := Option.isSome_iff_exists.mp hsome
    have hge := idxOfFrom_ge t (keptTokens counter) 5 j hj
    simp [Vocab.stoi, happ, hj, hge]
  · have hnone := idxOfFrom_eq_none_of_not_mem u v.itos 0 hu
    simp [Vocab.stoi, hnone, hdef]

/-- C1 witness: instantiation at the concrete counter `counter0`, the
retained token "good" and the absent token "unseen". -/
theorem special_tokens_fixed_indices_witness :
    (vocab0.stoi "[CLS]" = 0 ∧ vocab0.stoi "[PAD]" = 1 ∧ vocab0.stoi "[MASK]" = 2 ∧
      vocab0.stoi "[SEP]" = 3 ∧ vocab0.stoi "[UNK]" = 4) ∧
    (vocab0.lookup_token 0 = some "[CLS]" ∧ vocab0.lookup_token 1 = some "[PAD]" ∧
      vocab0.lookup_token 2 = some "[MASK]" ∧ vocab0.lookup_token 3 = some "[SEP]" ∧
      vocab0.lookup_token 4 = some "[UNK]") ∧
    5 ≤ vocab0.stoi "good" ∧ vocab0.stoi "unseen" = 4 :=
  special_tokens_fixed_indices counter0 vocab0 rfl "good" (by decide) (by decide)
    "unseen" (by decide)

/-- C8: encoding a token present in the frozen vocabulary and then decoding
the assigned index returns the original token; a token outside the specials
all of whose corpus counts are below the minimum frequency 2 (including a
token never seen at all) is mapped to the UNK index 4, which decodes to the
UNK symbol. -/
theorem vocab_roundtrip
    (counter : List (String × Nat)) (v : Vocab) (hv : fill_vocab counter = Except.ok v)
    (t : String) (ht : t ∈ v.itos)
    (u : String) (hu1 : u ∉ specials) (hu2 : ∀ c, (u, c) ∈ counter → c < 2) :
    v.lookup_token (v.stoi t) = some t ∧
      v.stoi u = 4 ∧ v.lookup_token (v.stoi u) = some "[UNK]" := by
  obtain ⟨hitos, hdef⟩ := fill_vocab_ok counter v hv
  have hsome := idxOfFrom_isSome_of_mem t v.itos 0 ht
  obtain ⟨j, hj⟩ := Option.isSome_iff_exists.mp hsome
  have hget := idxOfFrom_get t v.itos 0 j hj
  have hukept : u ∉ keptTokens counter := by
    intro hk
    obtain ⟨c, hm, hc⟩ := mem_keptTokens.mp hk
    exact absurd hc (Nat.not_le.mpr (hu2 c hm))
  have huitos : u ∉ v.itos := by
    rw [hitos]
    intro hm
    rcases List.mem_append.mp hm with h1 | h1
    · exact hu1 h1
    · exact hukept h1
  have hnone := idxOfFrom_eq_none_of_not_mem u v.itos 0 huitos
  refine ⟨?_, ?_, ?_⟩
  · simp only [Vocab.lookup_token, Vocab.stoi, hj, Option.getD_some]
    simpa using hget
  · simp [Vocab.stoi, hnone, hdef]
  · rw [Vocab.stoi, hnone]
    simp only [Option.getD_none, hdef]
    rw [Vocab.lookup_token, hitos]
    simp [specials]

/-- C8 witness: instantiation at `counter0`, the retained token "movie" and
the below-min-freq token "rare" (count 1). -/
theorem vocab_roundtrip_witness :
    vocab0.lookup_token (vocab0.stoi "movie") = some "movie" ∧
      vocab0.stoi "rare" = 4 ∧ vocab0.lookup_token (vocab0.stoi "rare") = some "[UNK]" :=
  vocab_roundtrip counter0 vocab0 rfl "movie" (by decide) "rare" (by decide)
    (fun c hc => by
      simp only [counter0, List.mem_cons, List.not_mem_nil, or_false,
        Prod.mk.injEq] at hc
      rcases hc with ⟨h1, h2⟩ | ⟨h1, h2⟩ | ⟨h1, h2⟩
      · exact absurd h1 (by decide)
      · exact absurd h1 (by decide)
      · omega)

/-- C2: no TrainingExample with masked, target and token-mask sequences is
ever produced.  Evaluating the pair-construction pass on a document with two
sentences: the very first call `self._create_item(first, second, 1)`
(line 97) raises TypeError, because `_create_item` (lines 139-140) is
defined with no parameters and merely returns `[0, 0, 0]`; no sequence of
length 2 times OptimalLength plus 3 is ever assembled.  This holds for every
tokenizer and every random stream. -/
theorem create_item_stub_fails (tokenizer : String → List String) (stream : List Nat) :
    preprocess_review tokenizer ["a b", "c d"] ([], stream) "a b. c d" =
      Except.error PyError.typeError := rfl

/-- C3: the optimal sentence length is never computed.  Because line 80
discards the list returned by `_update_length`, `sentence_lens` is still
empty at line 81 even for this corpus of five non-empty sentences, and
`np.percentile` of the empty array raises IndexError — so no 70th-percentile
value is ever produced, for every tokenizer and random stream. -/
theorem optimal_length_never_computed (tokenizer : String → List String)
    (stream : List Nat) :
    prepare_dataset tokenizer
      ["one two three. four five six. seven eight", "nine ten. eleven twelve"]
      stream = Except.error PyError.indexError :=
  prepare_dataset_fails tokenizer _ stream

/-- C4: a document with k = 3 sentences yields no examples at all, rather
than (k-1) positive and (k-1) negative ones: the build fails with the
IndexError of the empty percentile computation (line 81) before the pair
loop (lines 91-103) is ever reached, and the pair loop itself would raise
TypeError at `_create_item` and AttributeError at `random.randin`. -/
theorem nsp_pairs_never_assembled (tokenizer : String → List String)
    (stream : List Nat) :
    prepare_dataset tokenizer ["first sent. second sent. third sent"] stream =
      Except.error PyError.indexError :=
  prepare_dataset_fails tokenizer _ stream

/-- C5: the negative-pair sampler never returns a sentence pair, so in
particular no returned pair can witness the adjacency exclusion: on any
non-empty sentence list, after the first `random.randint` draw, the second
draw is written `random.randin` (line 133), an attribute the `random` module
does not have, and the call raises AttributeError before the exclusion
`while` loop (lines 135-136) runs. -/
theorem select_false_always_raises (stream : List Nat) :
    select_false_nsp_sentences ["sentence a", "sentence b", "sentence c"] stream =
      Except.error PyError.attributeError := rfl

/-- C6 counterexample: on a one-sentence corpus the sampler raises
AttributeError — not the DataError the claim requires. -/
theorem select_false_small_corpus_not_data_error :
    select_false_nsp_sentences ["only sentence"] [0] =
        Except.error PyError.attributeError ∧
      PyError.attributeError ≠ PyError.dataError :=
  ⟨rfl, by decide⟩

/-- C6 amended: negative-pair selection never reaches the rejection loop, so
it is trivially bounded but not by a retry cap: with no sentences it fails
with ValueError (from `random.randint(0, -1)` on an empty range), and on any
non-empty sentence list it fails with AttributeError (from the undefined
`random.randin`, line 133); it never raises a DataError and the code defines
no retry budget. -/
theorem select_false_bounded_behavior (s : String) (rest : List String)
    (stream : List Nat) :
    select_false_nsp_sentences (s :: rest) stream =
        Except.error PyError.attributeError ∧
      select_false_nsp_sentences [] stream = Except.error PyError.valueError :=
  ⟨rfl, rfl⟩

/-- C7 counterexample: on an empty word-count list the sequence-length
estimator fails with numpy's IndexError, not with a ConfigurationError (the
code defines no such error class). -/
theorem empty_percentile_error_kind :
    find_optimal_sentence_length [] = Except.error PyError.indexError ∧
      PyError.indexError ≠ PyError.configurationError :=
  ⟨rfl, by decide⟩

/-- C7 amended: when the word-count list given to
`_find_optimal_sentence_length` is empty, the build does fail before any
further build work (the error propagates out of `prepare_dataset` ahead of
vocabulary construction and pair generation), but with the IndexError numpy
raises for a percentile of an empty array rather than a ConfigurationError. -/
theorem empty_lengths_fail_before_build (tokenizer : String → List String)
    (stream : List Nat) :
    find_optimal_sentence_length [] = Except.error PyError.indexError ∧
      prepare_dataset tokenizer [] stream = Except.error PyError.indexError :=
  ⟨rfl, prepare_dataset_fails tokenizer [] stream⟩

/-- C9 counterexample: the constructor of `IMDBBertDataset` exposes no
`random_seed` parameter at all, so no injectable seed can make two builds
identical; the sampler draws from the process-global `random` module
instead. -/
theorem no_random_seed_parameter : "random_seed" ∉ init_params := by decide

/-- C9 amended: the constructor accepts no `random_seed` parameter (its
parameters are exactly `self, path, ds_from, ds_to, should_include_text`),
the code's stochastic calls go to the ambient global `random` module rather
than an injectable source, and in fact every build fails with the same
IndexError regardless of corpus, tokenizer and random stream, so no dataset
is ever produced for any seed. -/
theorem builds_never_reach_sampling (tokenizer : String → List String)
    (ds : List String) (stream : List Nat) :
    "random_seed" ∉ init_params ∧
      prepare_dataset tokenizer ds stream = Except.error PyError.indexError :=
  ⟨by decide, prepare_dataset_fails tokenizer ds stream⟩

/-- C10: no assembled dataset with alternating NSP labels ever exists: on
this two-document corpus (which the claim would have yield the label
sequence 1,0,1,0) the build fails with the IndexError of the empty
percentile computation before any example is appended, and the item
constructor `_create_item` raises TypeError whenever called. -/
theorem alternation_never_assembled (tokenizer : String → List String)
    (stream : List Nat) :
    prepare_dataset tokenizer ["a b. c d", "e f. g h"] stream =
      Except.error PyError.indexError :=
  prepare_dataset_fails tokenizer _ stream
